import Mathlib

/-
Verification of the jforg_upload backend (src/main.py, src/upload_script.py).

The Python sources are shallowly embedded below.  Python dicts with string
values become association lists (`StrDict`) with a `.get`-style lookup;
Python truthiness of strings ("" is falsy) is made explicit at each use;
the two network collaborators (the EP pipeline API and the upload
microservice) become explicit oracle parameters so that the pure
request-processing logic can be reasoned about for every possible
network behaviour.
-/

set_option autoImplicit false

namespace JforgUpload

/-! ## Generic string / list helpers (Python primitives) -/

/-- Does `pat` occur at the head of `s`?  (List-level building block for
Python's `in` substring test and `str.startswith`.) -/
def leadsWith : List Char → List Char → Bool
  | [], _ => true
  | _ :: _, [] => false
  | a :: as, b :: bs => a == b && leadsWith as bs

/-- Does `pat` occur anywhere inside `s`?  (Python's `pat in s`.) -/
def hasSubList (pat : List Char) : List Char → Bool
  | [] => leadsWith pat []
  | c :: rest => leadsWith pat (c :: rest) || hasSubList pat rest

/-- Python `pat in s` substring containment. -/
def strContains (s pat : String) : Bool :=
  hasSubList pat.data s.data

/-- Python `s.startswith(pat)`. -/
def strStarts (s pat : String) : Bool :=
  leadsWith pat.data s.data

/-- Python `s.endswith(pat)`. -/
def strEnds (s pat : String) : Bool :=
  leadsWith pat.data.reverse s.data.reverse

/-- Python `s.upper()` (ASCII case mapping, as used on the action names). -/
def upperStr (s : String) : String :=
  String.mk (s.data.map Char.toUpper)

/-- Python `s.lower()` (ASCII case mapping). -/
def lowerStr (s : String) : String :=
  String.mk (s.data.map Char.toLower)

/-- Drop the characters satisfying `p` from both ends of a character list. -/
def dropEnds (p : Char → Bool) (l : List Char) : List Char :=
  ((l.dropWhile p).reverse.dropWhile p).reverse

/-- Python `s.strip('/')` as used on `date_version` (single strip char). -/
def stripChar (c : Char) (s : String) : String :=
  String.mk (dropEnds (fun x => x == c) s.data)

/-- Python `s.strip()` (whitespace strip, used on the custom token). -/
def stripWs (s : String) : String :=
  String.mk (dropEnds Char.isWhitespace s.data)

/-- Python `os.path.basename` for forward-slash paths: everything after
the last `/`. -/
def basename (s : String) : String :=
  String.mk ((s.data.reverse.takeWhile (fun c => !(c == '/'))).reverse)

/-- Python `os.path.join(a, b)` for POSIX separators: `b` wins if absolute,
otherwise a single `/` is inserted unless `a` is empty or already ends
with `/`. -/
def path_join (a b : String) : String :=
  if strStarts b "/" then b
  else if a == "" then a ++ b
  else if strEnds a "/" then a ++ b
  else a ++ "/" ++ b

/-- Python `s.replace('\\', '/')` (single-character replacement), used in
`start_upload_process` to normalise separators of the joined full path. -/
def replaceBackslashes (s : String) : String :=
  String.mk (s.data.map (fun c => if c == '\\' then '/' else c))

/-! ## Python string-valued dicts as association lists -/

/-- A Python dict with string keys and string values. -/
abbrev StrDict := List (String × String)

/-- Python `d.get(k)`: `none` when the key is absent. -/
def dictGet? (d : StrDict) (k : String) : Option String :=
  (d.find? (fun kv => kv.fst == k)).map (fun kv => kv.snd)

/-- Python `d.get(k, v)`. -/
def dictGetD (d : StrDict) (k v : String) : String :=
  (dictGet? d k).getD v

/-- Lookup in a dict whose values are string lists, with `.get(k, [])`
semantics (used for `PRODUCT_TO_ACTION_NAME_MAP`). -/
def listMapGet (m : List (String × List String)) (k : String) : List String :=
  match m.find? (fun kv => kv.fst == k) with
  | some kv => kv.snd
  | none => []

/-! ## Config tables (src/upload_script.py lines 21-45, plus the base-path
table referenced by src/main.py) -/

/-- The table `FIXED_JSON_PATHS` from src/upload_script.py lines 40-45. -/
def FIXED_JSON_PATHS : StrDict :=
  [ ("ST3_DEV_json", "obs://harz-data-obs/vertical_version/vertical_package_config/ST3_dev/test.json"),
    ("ST3_PROD_json", "obs://harz-data-obs/vertical_version/vertical_package_config/ST3_prod/test.json"),
    ("ST35_DEV_json", "obs://harz-data-obs/vertical_version/vertical_package_config/ST35_dev/test.json"),
    ("ST35_PROD_json", "obs://harz-data-obs/vertical_version/vertical_package_config/ST35_prod/test.json") ]

/-- The table `PRODUCT_TO_ACTION_NAME_MAP` from src/upload_script.py lines 33-38. -/
def PRODUCT_TO_ACTION_NAME_MAP : List (String × List String) :=
  [ ("ST35_DEV", ["ST35 DEV SOP", "ST35 IFS", "st35 sop dev"]),
    ("ST35_PROD", ["ST35 PROD SOP", "ST35 IFS", "st35 sop prod"]),
    ("ST3_DEV", ["ST3 DEV SOP", "ST3 IFS", "st3 sop dev"]),
    ("ST3_PROD", ["ST3  PROD SOP", "ST3 IFS", "st3 sop prod"]) ]

/-- Modelled from the spec: `PRODUCT_FAMILY_BASE_PATHS` is imported by
src/main.py from upload_script but is missing from the src/ snapshot.
The spec's Config Tables section describes it as the static mapping
"product family → base storage path"; the concrete base paths per family
are recovered from the static destination templates (`TARGET_PATH_TEMPLATES`
in src/upload_script.py), which the spec says realise the same external
contract (base path + env segment + date version + "/"). -/
def PRODUCT_FAMILY_BASE_PATHS : StrDict :=
  [ ("ST35", "panguprodmmt/Momenta/174/NCD2442/"),
    ("ST3", "panguprodmmt/Momenta/167/NCD2442/") ]

/-! ## Data model -/

/-- One entry of the pipeline API's `action_task_list`: the fields read by
src/main.py, each with Python `.get` absence made explicit. -/
structure ActionRecord where
  proc_act_name : Option String
  action_type : Option String
  result : Option StrDict
  deriving DecidableEq

/-- The fetched API document, reduced to the part src/main.py reads:
`api_data.get("data", {}).get("action_task_list", [])`.  The empty
document `{}` corresponds to `⟨[]⟩`. -/
structure ApiData where
  action_task_list : List ActionRecord
  deriving DecidableEq

/-- One upload task dict built by `build_upload_tasks`
(src/main.py line 150/166). -/
structure UploadTask where
  product_key : String
  obs_path : String
  target_path : String
  deriving DecidableEq

/-! ## Target Path Resolver (src/main.py lines 56-88) -/

/-- The resolver `generate_dynamic_target_path` from src/main.py lines 56-88.  The
global `PRODUCT_FAMILY_BASE_PATHS` table is passed explicitly; Python's
`if not base_path` treats an empty configured path like a missing one. -/
def generate_dynamic_target_path (basePaths : StrDict) (product_key date_version : String) :
    Option String :=
  let family : Option String :=
    if strStarts product_key "ST35" then some "ST35"
    else if strStarts product_key "ST3" then some "ST3"
    else none
  match family with
  | none => none
  | some fam =>
    match dictGet? basePaths fam with
    | none => none
    | some base_path =>
      if base_path == "" then none
      else
        let env_part : Option String :=
          if strContains product_key "DEV" then some "dev/"
          else if strContains product_key "PROD" then some "prod/"
          else none
        match env_part with
        | none => none
        | some env => some (base_path ++ env ++ stripChar '/' date_version ++ "/")

/-- The Target Path Resolver exactly as claim C6 words it: family and
environment segment are determined up front, the date version is stripped
of leading and trailing slashes, and the pieces are concatenated; any
undeterminable piece yields `none`.  Used only to compare against the
source-derived `generate_dynamic_target_path`. -/
def resolveTargetPathClaim (basePaths : StrDict) (product_key date_version : String) :
    Option String :=
  let family : Option String :=
    if strStarts product_key "ST35" then some "ST35"
    else if strStarts product_key "ST3" then some "ST3"
    else none
  let env_segment : Option String :=
    if strContains product_key "DEV" then some "dev/"
    else if strContains product_key "PROD" then some "prod/"
    else none
  match family, env_segment with
  | some fam, some env =>
    (match dictGet? basePaths fam with
     | some base_path =>
       if base_path == "" then none
       else some (base_path ++ env ++ stripChar '/' date_version ++ "/")
     | none => none)
  | _, _ => none

/-! ## Path Extractor (src/main.py lines 90-133) -/

/-- Python `if x: paths.append(x)` on an optional string: append only when
present and non-empty. -/
def pushIf (paths : List String) (x : Option String) : List String :=
  match x with
  | some v => if v == "" then paths else paths ++ [v]
  | none => paths

/-- The extractor `extract_paths_from_action` from src/main.py lines 90-133: the three
mutually exclusive extraction rules. -/
def extract_paths_from_action (proc_act_name : String) (action : ActionRecord)
    (result_dict : StrDict) (product_key : String) : List String :=
  if strContains (upperStr proc_act_name) "SOP"
      && (action.action_type == some "harz_package_and_upload") then
    pushIf (pushIf [] (dictGet? result_dict "shadow_obs_path"))
      (dictGet? result_dict "package_obs_path")
  else if strContains (upperStr proc_act_name) "IFS" then
    let l1 := pushIf [] (dictGet? result_dict "lib_obs_path")
    if strEnds product_key "_PROD" then
      pushIf l1 (dictGet? result_dict "config_obs_path")
    else l1
  else if strContains (lowerStr proc_act_name) " sop " then
    pushIf (pushIf [] (dictGet? result_dict "rvc_obs_path"))
      (dictGet? result_dict "config_obs_path")
  else []

/-! ## Task Builder (src/main.py lines 136-168) -/

/-- The body of the `for product_key in requested_products` loop of
`build_upload_tasks` (src/main.py lines 140-166): the tasks contributed
by one requested product. -/
def tasksForProduct (basePaths : StrDict) (action_list : List ActionRecord)
    (date_version : String) (product_key : String) : List UploadTask :=
  match generate_dynamic_target_path basePaths product_key date_version with
  | none => []
  | some target_path =>
    match dictGet? FIXED_JSON_PATHS product_key with
    | some obs_path => [⟨product_key, obs_path, target_path⟩]
    | none =>
      let action_names := listMapGet PRODUCT_TO_ACTION_NAME_MAP product_key
      if action_names.isEmpty then []
      else
        let found_paths := action_list.flatMap (fun action =>
          match action.proc_act_name with
          | some n =>
            if action_names.contains n then
              extract_paths_from_action n action (action.result.getD []) product_key
            else []
          | none => [])
        found_paths.map (fun obs_path => ⟨product_key, obs_path, target_path⟩)

/-- The builder `build_upload_tasks` from src/main.py lines 136-168. -/
def build_upload_tasks (basePaths : StrDict) (api_data : ApiData)
    (requested_products : List String) (date_version : String) : List UploadTask :=
  requested_products.flatMap (tasksForProduct basePaths api_data.action_task_list date_version)

/-! ## Upload Executor (src/upload_script.py lines 51-106)

The upload microservice is an oracle `http : obs_path → target_path →
HttpResult`: either a response with a status code or a raised exception. -/

/-- The observable behaviour of one `requests.post` upload call. -/
inductive HttpResult where
  | resp (status_code : Nat)
  | exn (msg : String)
  deriving DecidableEq

/-- The `result_detail` dict built for one task in the loop body of
`execute_upload_tasks` (src/upload_script.py lines 79-101). -/
def mk_result (http : String → String → HttpResult) (task : UploadTask) : StrDict :=
  match http task.obs_path task.target_path with
  | .resp status_code =>
    if status_code == 200 then
      [("product", task.product_key), ("status", "success"), ("message", "上传成功")]
    else
      [("product", task.product_key), ("status", "error"),
       ("message", "上传失败 (状态码: " ++ toString status_code ++ ")")]
  | .exn e =>
    [("product", task.product_key), ("status", "error"),
     ("message", "网络请求异常: " ++ e)]

/-- The executor `execute_upload_tasks` from src/upload_script.py lines 51-106: one
outcome per task, in order, never short-circuiting. -/
def execute_upload_tasks (http : String → String → HttpResult) :
    List UploadTask → List StrDict
  | [] => []
  | task :: rest => mk_result http task :: execute_upload_tasks http rest

/-! ## Result Aggregator (src/main.py lines 242-298) -/

/-- One `failed_files` entry (src/main.py lines 268-271); both fields come
from `.get` on the outcome dict and may be absent. -/
structure FailedFile where
  obs_path : Option String
  reason : Option String
  deriving DecidableEq

/-- One per-product summary dict returned to the caller (src/main.py lines
274-296 for aggregated summaries; the early error returns of
`start_upload_process` produce dicts without the optional fields). -/
structure ProductSummary where
  product : String
  status : String
  message : String
  uploaded_paths : Option (List String)
  failed_files : Option (List FailedFile)
  deriving DecidableEq

/-- The body of the `for res in results_for_this_product` loop
(src/main.py lines 258-271), folding one outcome dict into the pair
(successful_full_paths, failed_items). -/
def agg_step (acc : List String × List FailedFile) (res : StrDict) :
    List String × List FailedFile :=
  if dictGetD res "status" "" == "success" then
    let filename := basename (dictGetD res "obs_path" "")
    if filename == "" then acc
    else (acc.1 ++ [replaceBackslashes (path_join (dictGetD res "target_path" "") filename)],
          acc.2)
  else
    (acc.1, acc.2 ++ [⟨dictGet? res "obs_path", dictGet? res "message"⟩])

/-- The body of the `for product_key in request.products` aggregation loop
(src/main.py lines 248-298): the summary for one requested product. -/
def summarize (final_results : List StrDict) (product_key : String) : ProductSummary :=
  let results_for_this_product :=
    final_results.filter (fun res => dictGetD res "product" "" == product_key)
  let acc := results_for_this_product.foldl agg_step ([], [])
  let successful_full_paths := acc.1
  let failed_items := acc.2
  if results_for_this_product.isEmpty then
    ⟨product_key, "error", "未能构建上传任务，请检查后端日志和配置。",
     some successful_full_paths, none⟩
  else if !failed_items.isEmpty then
    ⟨product_key, "error",
     "部分文件上传失败 (成功: " ++ toString successful_full_paths.length
       ++ ", 失败: " ++ toString failed_items.length ++ ")",
     some successful_full_paths, some failed_items⟩
  else
    ⟨product_key, "success",
     "全部上传成功 (" ++ toString successful_full_paths.length ++ "个文件)",
     some successful_full_paths, none⟩

/-- The aggregation stage of `start_upload_process` (src/main.py lines
245-298): one summary per requested product, in request order. -/
def aggregate_results (final_results : List StrDict) (products : List String) :
    List ProductSummary :=
  products.map (summarize final_results)

/-! ## Request Handler (src/main.py lines 172-310) -/

/-- The observable behaviour of the single EP pipeline-API fetch
(src/main.py lines 217-230): a parsed document, a timeout, an HTTP error
raised by `raise_for_status`, or any other exception. -/
inductive FetchResult where
  | ok (data : ApiData)
  | timeout
  | httpError (status_code : Nat) (body : String)
  | otherError (msg : String)
  deriving DecidableEq

/-- The request body model `UploadRequest` (src/main.py lines 25-29). -/
structure UploadRequest where
  pipeline_url : String
  date_version : String
  custom_token : Option String
  products : List String
  deriving DecidableEq

/-- What `start_upload_process` hands back: either a raised
`HTTPException` or a JSON list of per-product entries. -/
inductive HandlerResponse where
  | httpException (status_code : Nat) (detail : String)
  | results (l : List ProductSummary)
  deriving DecidableEq

/-- The helper `extract_task_id_from_url` (src/main.py lines 31-33): leftmost match
of the regex `/tasks/([a-f0-9]+)`, returning the captured hex run. -/
def isHexLower (c : Char) : Bool :=
  ('a' ≤ c && c ≤ 'f') || ('0' ≤ c && c ≤ '9')

/-- Character-list search for the regex `/tasks/([a-f0-9]+)`: at each
position, if the literal `/tasks/` matches and at least one hex character
follows, capture the maximal hex run; otherwise keep scanning. -/
def findTaskId : List Char → Option (List Char)
  | [] => none
  | c :: rest =>
    if leadsWith "/tasks/".data (c :: rest) then
      let run := ((c :: rest).drop 7).takeWhile isHexLower
      if run.isEmpty then findTaskId rest else some run
    else findTaskId rest

/-- The function `extract_task_id_from_url` from src/main.py lines 31-33. -/
def extract_task_id_from_url (url : String) : Option String :=
  (findTaskId url.data).map String.mk

/-- The handler `start_upload_process` (src/main.py lines 172-310), with the EP fetch
and the upload service as oracles and the environment token as a value.
The `.env` rewrite of a newly supplied token (lines 185-191) is a file
side effect with no bearing on the response and is not modelled.  The
returned Bool records whether the EP pipeline API was called. -/
def start_upload_process (envToken : Option String) (fetch : String → FetchResult)
    (http : String → String → HttpResult) (request : UploadRequest) :
    HandlerResponse × Bool :=
  let current_token_from_env := envToken
  -- request.custom_token and request.custom_token.strip(): truthy iff a
  -- non-blank token was supplied (src/main.py line 181)
  let new_token_provided : Bool := !(stripWs (request.custom_token.getD "") == "")
  let token_for_this_request :=
    if new_token_provided then request.custom_token else current_token_from_env
  if token_for_this_request.getD "" == "" then
    (.httpException 401 "认证失败：未提供任何 Token。请在 .env 文件或前端输入框中提供。", false)
  else
    let runTail : ApiData → HandlerResponse := fun api_data =>
      let upload_tasks :=
        build_upload_tasks PRODUCT_FAMILY_BASE_PATHS api_data request.products
          request.date_version
      let final_results := execute_upload_tasks http upload_tasks
      .results (aggregate_results final_results request.products)
    let dynamic_products_requested :=
      request.products.any (fun p => !(dictGet? FIXED_JSON_PATHS p).isSome)
    if dynamic_products_requested then
      if request.pipeline_url == "" then
        (.results ((request.products.filter
            (fun p => !(dictGet? FIXED_JSON_PATHS p).isSome)).map
          (fun p => ⟨p, "error", "需要动态获取路径，但未提供 Pipeline URL。", none, none⟩)), false)
      else
        match extract_task_id_from_url request.pipeline_url with
        | none => (.httpException 400 "URL格式错误，无法解析Task ID", false)
        | some task_id =>
          match fetch task_id with
          | .timeout => (.httpException 504 "调用 EP API 超时，请检查容器网络。", true)
          | .httpError status_code body =>
            if status_code == 401 || status_code == 403 then
              (.httpException status_code
                "认证失败(401/403): Token 无效或已过期，请尝试在前端输入新的Token。", true)
            else
              (.httpException status_code ("调用 EP API 失败: " ++ body), true)
          | .otherError msg =>
            (.results (request.products.map
              (fun p => ⟨p, "error", "调用 EP API 失败: " ++ msg, none, none⟩)), true)
          | .ok api_data => (runTail api_data, true)
    else
      (runTail ⟨[]⟩, false)

/-- Projection used to state properties of a handler response: the product
names of a `results` response. -/
def resultProducts : HandlerResponse → Option (List String)
  | .results l => some (l.map (fun s => s.product))
  | _ => none

/-- Projection used to state properties of a handler response: whether all
entries of a `results` response report success. -/
def resultAllSuccess : HandlerResponse → Bool
  | .results l => l.all (fun s => s.status == "success")
  | _ => false

/-! ## Helper lemmas -/

theorem exec_eq_map (http : String → String → HttpResult) (tasks : List UploadTask) :
    execute_upload_tasks http tasks = tasks.map (mk_result http) := by
  induction tasks with
  | nil => rfl
  | cons t rest ih => simp [execute_upload_tasks, ih]

theorem mk_result_keys (http : String → String → HttpResult) (t : UploadTask) :
    (mk_result http t).map Prod.fst = ["product", "status", "message"] := by
  unfold mk_result
  rcases http t.obs_path t.target_path with code | e
  · by_cases hc : (code == 200) = true <;> simp [hc]
  · rfl

theorem mk_result_product (http : String → String → HttpResult) (t : UploadTask) :
    dictGetD (mk_result http t) "product" "" = t.product_key := by
  unfold mk_result
  rcases http t.obs_path t.target_path with code | e
  · by_cases hc : (code == 200) = true <;> simp [hc] <;> rfl
  · rfl

theorem mk_result_obs (http : String → String → HttpResult) (t : UploadTask) :
    dictGet? (mk_result http t) "obs_path" = none := by
  unfold mk_result
  rcases http t.obs_path t.target_path with code | e
  · by_cases hc : (code == 200) = true <;> simp [hc] <;> rfl
  · rfl

theorem filter_map_product (http : String → String → HttpResult) (tasks : List UploadTask)
    (pk : String) :
    (tasks.map (mk_result http)).filter (fun res => dictGetD res "product" "" == pk)
      = (tasks.filter (fun t => t.product_key == pk)).map (mk_result http) := by
  induction tasks with
  | nil => rfl
  | cons t rest ih =>
    simp only [List.map_cons, List.filter_cons, mk_result_product]
    by_cases hb : (t.product_key == pk) = true
    · simp [hb, ih]
    · simp [Bool.not_eq_true] at hb
      simp [hb, ih]

theorem agg_step_of_no_obs (ab : List String × List FailedFile) (res : StrDict)
    (h : dictGet? res "obs_path" = none) :
    agg_step ab res = ab ∨
      agg_step ab res = (ab.1, ab.2 ++ [⟨none, dictGet? res "message"⟩]) := by
  unfold agg_step
  have hd : dictGetD res "obs_path" "" = "" := by simp [dictGetD, h]
  rw [hd, h]
  have hbn : basename "" = "" := rfl
  by_cases hs : (dictGetD res "status" "" == "success") = true
  · left; simp [hs, hbn]
  · simp [Bool.not_eq_true] at hs
    right; simp [hs]

theorem foldl_agg_no_obs (l : List StrDict) (h : ∀ res ∈ l, dictGet? res "obs_path" = none) :
    ∀ ab : List String × List FailedFile,
      (l.foldl agg_step ab).1 = ab.1 ∧
      ((∀ x ∈ ab.2, x.obs_path = none) → ∀ x ∈ (l.foldl agg_step ab).2, x.obs_path = none) := by
  induction l with
  | nil => intro ab; exact ⟨rfl, fun hx => hx⟩
  | cons res rest ih =>
    intro ab
    have hres := h res (by simp)
    have hrest : ∀ r ∈ rest, dictGet? r "obs_path" = none := fun r hr => h r (by simp [hr])
    rcases agg_step_of_no_obs ab res hres with hstep | hstep <;>
      simp only [List.foldl_cons, hstep]
    · exact (ih hrest) ab
    · obtain ⟨h1, h2⟩ := (ih hrest) (ab.1, ab.2 ++ [⟨none, dictGet? res "message"⟩])
      refine ⟨h1, fun hab x hx => ?_⟩
      refine h2 ?_ x hx
      intro y hy
      rcases List.mem_append.mp hy with hy' | hy'
      · exact hab y hy'
      · simp at hy'; simp [hy']

theorem summarize_product (f : List StrDict) (pk : String) :
    (summarize f pk).product = pk := by
  unfold summarize
  dsimp only
  split
  · rfl
  · split <;> rfl

theorem summarize_no_results (f : List StrDict) (pk : String)
    (hkey : f.filter (fun res => dictGetD res "product" "" == pk) = []) :
    summarize f pk = ⟨pk, "error", "未能构建上传任务，请检查后端日志和配置。", some [], none⟩ := by
  unfold summarize
  rw [hkey]
  rfl

theorem summarize_uploaded (f : List StrDict) (pk : String)
    (hobs : ∀ res ∈ f, dictGet? res "obs_path" = none) :
    (summarize f pk).uploaded_paths = some [] ∧
    (∀ fl, (summarize f pk).failed_files = some fl → ∀ x ∈ fl, x.obs_path = none) := by
  have hsub : ∀ res ∈ f.filter (fun res => dictGetD res "product" "" == pk),
      dictGet? res "obs_path" = none :=
    fun res hr => hobs res (List.mem_of_mem_filter hr)
  obtain ⟨h1, h2⟩ := foldl_agg_no_obs _ hsub ([], [])
  have h2' := h2 (by intro x hx; simp at hx)
  unfold summarize
  dsimp only
  constructor
  · split
    · simp [h1]
    · split <;> simp [h1]
  · split
    · intro fl hfl; simp at hfl
    · split
      · intro fl hfl
        injection hfl with hfl
        subst hfl
        exact h2'
      · intro fl hfl; simp at hfl

theorem aggregate_products (f : List StrDict) (products : List String) :
    (aggregate_results f products).map (fun s => s.product) = products := by
  induction products with
  | nil => rfl
  | cons p rest ih => simp [aggregate_results, summarize_product, ih] at ih ⊢; exact ih

theorem exec_obs_none (http : String → String → HttpResult) (tasks : List UploadTask) :
    ∀ res ∈ execute_upload_tasks http tasks, dictGet? res "obs_path" = none := by
  rw [exec_eq_map]
  intro res hr
  obtain ⟨t, _, rfl⟩ := List.mem_map.mp hr
  exact mk_result_obs http t

theorem tasksForProduct_key (bp : StrDict) (al : List ActionRecord) (dv p : String) :
    ∀ t ∈ tasksForProduct bp al dv p, t.product_key = p := by
  intro t ht
  unfold tasksForProduct at ht
  rcases h1 : generate_dynamic_target_path bp p dv with _ | tp <;> rw [h1] at ht
  · simp at ht
  · rcases h2 : dictGet? FIXED_JSON_PATHS p with _ | obs <;> rw [h2] at ht
    · by_cases h3 : (listMapGet PRODUCT_TO_ACTION_NAME_MAP p).isEmpty = true
      · simp [h3] at ht
      · simp only [Bool.not_eq_true] at h3
        simp only [h3, Bool.false_eq_true, if_false, List.mem_map] at ht
        obtain ⟨_, _, rfl⟩ := ht
        rfl
    · simp at ht
      simp [ht]

theorem tasksForProduct_none (bp : StrDict) (al : List ActionRecord) (dv key : String)
    (hres : generate_dynamic_target_path bp key dv = none) :
    tasksForProduct bp al dv key = [] := by
  unfold tasksForProduct
  rw [hres]

theorem aggregate_filter_key (final : List StrDict) (products : List String) (key : String)
    (hkey : final.filter (fun res => dictGetD res "product" "" == key) = []) :
    (aggregate_results final products).filter (fun s => s.product == key)
      = List.replicate (products.count key)
          ⟨key, "error", "未能构建上传任务，请检查后端日志和配置。", some [], none⟩ := by
  induction products with
  | nil => rfl
  | cons p rest ih =>
    simp only [aggregate_results, List.map_cons, List.filter_cons, summarize_product] at ih ⊢
    by_cases hp : p = key
    · subst hp
      simp only [beq_self_eq_true, if_true, List.count_cons, beq_self_eq_true, if_pos]
      rw [summarize_no_results final p hkey, ih]
      simp [List.replicate_succ, Nat.add_comm]
    · have hb : (p == key) = false := by simp [hp]
      simp only [hb, Bool.false_eq_true, if_false, List.count_cons, hb]
      simpa using ih

theorem fixed_key_cases (pk : String) (h : (dictGet? FIXED_JSON_PATHS pk).isSome = true) :
    pk = "ST3_DEV_json" ∨ pk = "ST3_PROD_json" ∨ pk = "ST35_DEV_json" ∨ pk = "ST35_PROD_json" := by
  by_cases h1 : pk = "ST3_DEV_json"
  · exact Or.inl h1
  by_cases h2 : pk = "ST3_PROD_json"
  · exact Or.inr (Or.inl h2)
  by_cases h3 : pk = "ST35_DEV_json"
  · exact Or.inr (Or.inr (Or.inl h3))
  by_cases h4 : pk = "ST35_PROD_json"
  · exact Or.inr (Or.inr (Or.inr h4))
  exfalso
  have e1 : ("ST3_DEV_json" == pk) = false := by simp [Ne.symm h1]
  have e2 : ("ST3_PROD_json" == pk) = false := by simp [Ne.symm h2]
  have e3 : ("ST35_DEV_json" == pk) = false := by simp [Ne.symm h3]
  have e4 : ("ST35_PROD_json" == pk) = false := by simp [Ne.symm h4]
  simp [dictGet?, FIXED_JSON_PATHS, List.find?, e1, e2, e3, e4] at h

theorem tasksForProduct_fixed (pk : String) (h : (dictGet? FIXED_JSON_PATHS pk).isSome = true)
    (al : List ActionRecord) (dv : String) :
    ∃ src dest, tasksForProduct PRODUCT_FAMILY_BASE_PATHS al dv pk = [⟨pk, src, dest⟩] := by
  rcases fixed_key_cases pk h with rfl | rfl | rfl | rfl <;> exact ⟨_, _, rfl⟩

theorem build_filter_ne (api : ApiData) (products : List String) (dv pk : String)
    (hpk : pk ∈ products) (hfx : (dictGet? FIXED_JSON_PATHS pk).isSome = true) :
    (build_upload_tasks PRODUCT_FAMILY_BASE_PATHS api products dv).filter
      (fun t => t.product_key == pk) ≠ [] := by
  induction products with
  | nil => simp at hpk
  | cons p rest ih =>
    unfold build_upload_tasks at ih ⊢
    simp only [List.flatMap_cons, List.filter_append]
    rcases List.mem_cons.mp hpk with rfl | hmem
    · obtain ⟨src, dest, hsing⟩ := tasksForProduct_fixed pk hfx api.action_task_list dv
      rw [hsing]
      intro hcontra
      rw [List.append_eq_nil] at hcontra
      simp at hcontra
    · intro hcontra
      rw [List.append_eq_nil] at hcontra
      exact ih hmem hcontra.2

theorem agg_step_success (ab : List String × List FailedFile) (pk : String) :
    agg_step ab [("product", pk), ("status", "success"), ("message", "上传成功")] = ab := rfl

theorem foldl_agg_success (http : String → String → HttpResult)
    (h200 : ∀ a b, http a b = HttpResult.resp 200) (l : List UploadTask) :
    ∀ ab : List String × List FailedFile, (l.map (mk_result http)).foldl agg_step ab = ab := by
  induction l with
  | nil => intro ab; rfl
  | cons t rest ih =>
    intro ab
    have hm : mk_result http t
        = [("product", t.product_key), ("status", "success"), ("message", "上传成功")] := by
      unfold mk_result; rw [h200]; rfl
    simp only [List.map_cons, List.foldl_cons, hm, agg_step_success]
    exact ih ab

theorem summarize_success (http : String → String → HttpResult)
    (h200 : ∀ a b, http a b = HttpResult.resp 200) (tasks : List UploadTask) (pk : String)
    (hne : tasks.filter (fun t => t.product_key == pk) ≠ []) :
    (summarize (execute_upload_tasks http tasks) pk).status = "success" := by
  obtain ⟨a, l', hl⟩ : ∃ a l', tasks.filter (fun t => t.product_key == pk) = a :: l' := by
    rcases hlf : tasks.filter (fun t => t.product_key == pk) with _ | ⟨a, l'⟩
    · exact absurd hlf hne
    · exact ⟨a, l', hlf⟩
  unfold summarize
  rw [exec_eq_map, filter_map_product, hl]
  have hfold : ((a :: l').map (mk_result http)).foldl agg_step ([], []) = ([], []) :=
    foldl_agg_success http h200 (a :: l') ([], [])
  simp only [List.map_cons] at hfold ⊢
  rw [hfold]
  rfl

theorem exec_keys (http : String → String → HttpResult) (tasks : List UploadTask) :
    (execute_upload_tasks http tasks).map (fun res => res.map Prod.fst)
      = List.replicate tasks.length ["product", "status", "message"] := by
  induction tasks with
  | nil => rfl
  | cons t rest ih =>
    simp only [execute_upload_tasks, List.map_cons, mk_result_keys, ih, List.length_cons,
      List.replicate_succ]

theorem pushIf_eq (l : List String) (x : Option String) :
    pushIf l x = l ++ (match x with
      | some v => if v == "" then [] else [v]
      | none => []) := by
  rcases x with _ | v
  · simp [pushIf]
  · unfold pushIf
    by_cases hv : (v == "") = true <;> simp [hv]

/-! ## Claim theorems -/

/-- Claim C1 (code evaluation at the failing input): for a product with two
successful uploads and one failed upload, the aggregated summary reports
"成功: 0, 失败: 1" and an empty `uploaded_paths`, because the outcome dicts
produced by `execute_upload_tasks` carry no `obs_path`/`target_path` keys;
the claim (and src/main.py's own full-path aggregation code) expects a
success count of 2 and the two joined full paths. -/
theorem C1_code_evaluation :
    aggregate_results
        (execute_upload_tasks
          (fun obs _ => if obs == "obs://x/c.txt" then HttpResult.resp 500
                        else HttpResult.resp 200)
          [⟨"ST3_DEV", "obs://x/a.txt", "base/dev/v/"⟩,
           ⟨"ST3_DEV", "obs://x/b.txt", "base/dev/v/"⟩,
           ⟨"ST3_DEV", "obs://x/c.txt", "base/dev/v/"⟩])
        ["ST3_DEV"]
      = [⟨"ST3_DEV", "error", "部分文件上传失败 (成功: 0, 失败: 1)", some [],
          some [⟨none, some "上传失败 (状态码: 500)"⟩]⟩] := by rfl

/-- Claim C2: every outcome dict produced by `execute_upload_tasks` has
exactly the keys `product`, `status`, `message` (so never `obs_path` or
`target_path`); consequently every aggregated product summary has
`uploaded_paths = some []` and every `failed_files` entry has
`obs_path = none`. -/
theorem C2_outcome_shape (http : String → String → HttpResult) (tasks : List UploadTask)
    (products : List String) :
    (execute_upload_tasks http tasks).map (fun res => res.map Prod.fst)
      = List.replicate tasks.length ["product", "status", "message"] ∧
    (aggregate_results (execute_upload_tasks http tasks) products).map
        (fun s => s.uploaded_paths)
      = List.replicate products.length (some []) ∧
    ((aggregate_results (execute_upload_tasks http tasks) products).all (fun s =>
        match s.failed_files with
        | some fl => fl.all (fun x => x.obs_path.isNone)
        | none => true)) = true := by
  have hobs := exec_obs_none http tasks
  refine ⟨exec_keys http tasks, ?_, ?_⟩
  · have hup : ∀ pk, (summarize (execute_upload_tasks http tasks) pk).uploaded_paths
        = some [] :=
      fun pk => (summarize_uploaded _ pk hobs).1
    unfold aggregate_results
    induction products with
    | nil => rfl
    | cons p rest ih =>
      simp only [List.map_cons, hup, ih, List.length_cons, List.replicate_succ]
  · rw [List.all_eq_true]
    intro s hs
    unfold aggregate_results at hs
    obtain ⟨pk, hpk, rfl⟩ := List.mem_map.mp hs
    obtain ⟨h1, h2⟩ := summarize_uploaded (execute_upload_tasks http tasks) pk hobs
    rcases hff : (summarize (execute_upload_tasks http tasks) pk).failed_files with _ | fl
    · simp [hff]
    · simp only [hff]
      rw [List.all_eq_true]
      intro x hx
      simp [h2 fl hff x hx]

/-- Claim C3 (counterexample to the claim as stated): for a product key
with no determinable destination, the aggregated summary does carry an
`uploaded_paths` field (holding the empty list), contradicting the claimed
"no uploaded-paths list". -/
theorem C3_counterexample :
    ((aggregate_results
        (execute_upload_tasks (fun _ _ => HttpResult.exn "unreachable")
          (build_upload_tasks PRODUCT_FAMILY_BASE_PATHS ⟨[]⟩ ["FOO"] "v"))
        ["FOO"]).map (fun s => (s.status, s.message, s.uploaded_paths))
      = [("error", "未能构建上传任务，请检查后端日志和配置。", some [])])
    ∧ (some ([] : List String)) ≠ none := ⟨rfl, by simp⟩

/-- Claim C3 (amended): for every requested product key for which no
destination path can be determined, the Task Builder produces zero tasks
for that key without raising any error, and the Result Aggregator yields
for every occurrence of it a summary with status = error, the
"no tasks could be built" message, and an empty `uploaded_paths` list. -/
theorem C3_no_destination (bp : StrDict) (api : ApiData) (products : List String)
    (dv key : String) (http : String → String → HttpResult)
    (hres : generate_dynamic_target_path bp key dv = none) :
    (build_upload_tasks bp api products dv).filter (fun t => t.product_key == key) = [] ∧
    (aggregate_results
        (execute_upload_tasks http (build_upload_tasks bp api products dv)) products).filter
        (fun s => s.product == key)
      = List.replicate (products.count key)
          ⟨key, "error", "未能构建上传任务，请检查后端日志和配置。", some [], none⟩ := by
  have hb : ∀ t ∈ build_upload_tasks bp api products dv, (t.product_key == key) = false := by
    intro t ht
    unfold build_upload_tasks at ht
    obtain ⟨p, hp, htp⟩ := List.mem_flatMap.mp ht
    have hkeyp := tasksForProduct_key bp api.action_task_list dv p t htp
    by_cases hpk : p = key
    · subst hpk
      rw [tasksForProduct_none bp api.action_task_list dv p hres] at htp
      simp at htp
    · rw [hkeyp]
      simp [hpk]
  have hfilter : (build_upload_tasks bp api products dv).filter
      (fun t => t.product_key == key) = [] := by
    rw [List.filter_eq_nil_iff]
    intro t ht
    simp [hb t ht]
  refine ⟨hfilter, ?_⟩
  have hkey : (execute_upload_tasks http (build_upload_tasks bp api products dv)).filter
      (fun res => dictGetD res "product" "" == key) = [] := by
    rw [exec_eq_map, filter_map_product, hfilter]
    rfl
  exact aggregate_filter_key _ products key hkey

/-- Witness for C3: a concrete product key "FOO" (no ST3/ST35 family) with
the amended conclusion instantiated. -/
theorem C3_no_destination_witness :
    generate_dynamic_target_path PRODUCT_FAMILY_BASE_PATHS "FOO" "v" = none ∧
    (build_upload_tasks PRODUCT_FAMILY_BASE_PATHS ⟨[]⟩ ["FOO"] "v").filter
        (fun t => t.product_key == "FOO") = [] ∧
    (aggregate_results
        (execute_upload_tasks (fun _ _ => HttpResult.exn "boom")
          (build_upload_tasks PRODUCT_FAMILY_BASE_PATHS ⟨[]⟩ ["FOO"] "v")) ["FOO"]).filter
        (fun s => s.product == "FOO")
      = List.replicate ((["FOO"] : List String).count "FOO")
          ⟨"FOO", "error", "未能构建上传任务，请检查后端日志和配置。", some [], none⟩ := by
  have h := C3_no_destination PRODUCT_FAMILY_BASE_PATHS ⟨[]⟩ ["FOO"] "v" "FOO"
    (fun _ _ => HttpResult.exn "boom") rfl
  exact ⟨rfl, h.1, h.2⟩

/-- Claim C4: for every action whose name contains "SOP" case-insensitively
and whose `action_type` is `harz_package_and_upload`, the Path Extractor
returns `shadow_obs_path` then `package_obs_path`, each included only if
present with a non-empty value, in that order. -/
theorem C4_sop_rule (name : String) (action : ActionRecord) (result_dict : StrDict)
    (key : String)
    (h1 : strContains (upperStr name) "SOP" = true)
    (h2 : action.action_type = some "harz_package_and_upload") :
    extract_paths_from_action name action result_dict key =
      (match dictGet? result_dict "shadow_obs_path" with
       | some v => if v == "" then [] else [v]
       | none => []) ++
      (match dictGet? result_dict "package_obs_path" with
       | some v => if v == "" then [] else [v]
       | none => []) := by
  unfold extract_paths_from_action
  simp only [h1, h2]
  simp [pushIf_eq]

/-- Witness for C4: the spec's example action "ST3 DEV SOP" with result
mapping shadow ↦ "a", package ↦ "b" yields ["a", "b"]. -/
theorem C4_sop_rule_witness :
    extract_paths_from_action "ST3 DEV SOP"
      ⟨some "ST3 DEV SOP", some "harz_package_and_upload",
        some [("shadow_obs_path", "a"), ("package_obs_path", "b")]⟩
      [("shadow_obs_path", "a"), ("package_obs_path", "b")] "ST3_DEV" = ["a", "b"] := by
  have h := C4_sop_rule "ST3 DEV SOP"
    ⟨some "ST3 DEV SOP", some "harz_package_and_upload",
      some [("shadow_obs_path", "a"), ("package_obs_path", "b")]⟩
    [("shadow_obs_path", "a"), ("package_obs_path", "b")] "ST3_DEV" rfl rfl
  exact h.trans rfl

/-- Claim C5: for every action not matched by rule 1 whose name contains
"IFS" case-insensitively, the Path Extractor returns `lib_obs_path` if
present and non-empty, followed by `config_obs_path` only when present,
non-empty, and the product key ends with "_PROD". -/
theorem C5_ifs_rule (name : String) (action : ActionRecord) (result_dict : StrDict)
    (key : String)
    (h1 : (strContains (upperStr name) "SOP"
        && (action.action_type == some "harz_package_and_upload")) = false)
    (h2 : strContains (upperStr name) "IFS" = true) :
    extract_paths_from_action name action result_dict key =
      (match dictGet? result_dict "lib_obs_path" with
       | some v => if v == "" then [] else [v]
       | none => []) ++
      (if strEnds key "_PROD" then
        (match dictGet? result_dict "config_obs_path" with
         | some v => if v == "" then [] else [v]
         | none => [])
       else []) := by
  unfold extract_paths_from_action
  simp only [h1, h2]
  by_cases hp : strEnds key "_PROD" = true
  · simp [hp, pushIf_eq]
  · simp only [Bool.not_eq_true] at hp
    simp [hp, pushIf_eq]

/-- Witness for C5: the spec's example "ST3 IFS" action with lib ↦ "x" and
config ↦ "c" for product key "ST3_DEV" (not ending in "_PROD") yields only
["x"], excluding the present config path. -/
theorem C5_ifs_rule_witness :
    extract_paths_from_action "ST3 IFS" ⟨some "ST3 IFS", none, none⟩
      [("lib_obs_path", "x"), ("config_obs_path", "c")] "ST3_DEV" = ["x"] := by
  have h := C5_ifs_rule "ST3 IFS" ⟨some "ST3 IFS", none, none⟩
    [("lib_obs_path", "x"), ("config_obs_path", "c")] "ST3_DEV" rfl rfl
  exact h.trans rfl

/-- Claim C6: the Target Path Resolver returns
base_path ++ env_segment ++ (dateVersion stripped of leading/trailing "/")
++ "/", with family ST35/ST3 by prefix, env segment dev/prod by
containment, and `none` whenever family, base path, or environment segment
cannot be determined; in particular resolving "ST35_PROD" with date
"2025-01-01/" against base path "base/ST35/" yields
"base/ST35/prod/2025-01-01/". -/
theorem C6_target_path_resolver (basePaths : StrDict) (key dv : String) :
    generate_dynamic_target_path basePaths key dv = resolveTargetPathClaim basePaths key dv ∧
    generate_dynamic_target_path [("ST35", "base/ST35/")] "ST35_PROD" "2025-01-01/"
      = some "base/ST35/prod/2025-01-01/" := by
  constructor
  · unfold generate_dynamic_target_path resolveTargetPathClaim
    dsimp only
    by_cases h1 : strStarts key "ST35" = true <;>
      by_cases h2 : strStarts key "ST3" = true <;>
        by_cases hd : strContains key "DEV" = true <;>
          by_cases hpd : strContains key "PROD" = true <;>
            simp only [h1, h2, hd, hpd, Bool.not_eq_true, if_true, if_false] <;>
            (try simp_all) <;>
            first
            | rfl
            | (rcases hb : dictGet? basePaths "ST35" with _ | bp <;>
                simp only [hb] <;> (try rfl) <;>
                by_cases hbe : (bp == "") = true <;> simp [hbe])
            | (rcases hb : dictGet? basePaths "ST3" with _ | bp <;>
                simp only [hb] <;> (try rfl) <;>
                by_cases hbe : (bp == "") = true <;> simp [hbe])
  · rfl

/-- Claim C7: for every fixed-path product key, Task Builder emits exactly
one task — the key, its hardcoded source path, and the resolved
destination — for every API document (which is never consulted). -/
theorem C7_fixed_path_single_task (key src : String)
    (h : dictGet? FIXED_JSON_PATHS key = some src) (api : ApiData) (dv : String) :
    (generate_dynamic_target_path PRODUCT_FAMILY_BASE_PATHS key dv).isSome = true ∧
    build_upload_tasks PRODUCT_FAMILY_BASE_PATHS api [key] dv =
      [⟨key, src,
        (generate_dynamic_target_path PRODUCT_FAMILY_BASE_PATHS key dv).getD ""⟩] := by
  rcases fixed_key_cases key (by rw [h]; rfl) with rfl | rfl | rfl | rfl <;>
    (obtain rfl := Option.some.inj h) <;> exact ⟨rfl, rfl⟩

/-- Witness for C7: the fixed-path key "ST3_DEV_json" with an arbitrary
document and date version. -/
theorem C7_fixed_path_single_task_witness :
    (generate_dynamic_target_path PRODUCT_FAMILY_BASE_PATHS "ST3_DEV_json"
      "20250925_A182.03").isSome = true ∧
    build_upload_tasks PRODUCT_FAMILY_BASE_PATHS ⟨[]⟩ ["ST3_DEV_json"] "20250925_A182.03" =
      [⟨"ST3_DEV_json",
        "obs://harz-data-obs/vertical_version/vertical_package_config/ST3_dev/test.json",
        (generate_dynamic_target_path PRODUCT_FAMILY_BASE_PATHS "ST3_DEV_json"
          "20250925_A182.03").getD ""⟩] :=
  C7_fixed_path_single_task "ST3_DEV_json"
    "obs://harz-data-obs/vertical_version/vertical_package_config/ST3_dev/test.json"
    rfl ⟨[]⟩ "20250925_A182.03"

/-- Claim C8: the Upload Executor returns exactly one outcome per input
task in the same order and never short-circuits: HTTP 200 gives a success
outcome, any other status code an error outcome whose message embeds the
status code, and a raised exception an error outcome whose message embeds
the exception text. -/
theorem C8_executor_outcomes (http : String → String → HttpResult) (tasks : List UploadTask) :
    (execute_upload_tasks http tasks).length = tasks.length ∧
    ∀ i : Nat, (execute_upload_tasks http tasks)[i]?
      = (tasks[i]?).map (fun task =>
          match http task.obs_path task.target_path with
          | .resp status_code =>
            if status_code == 200 then
              [("product", task.product_key), ("status", "success"), ("message", "上传成功")]
            else
              [("product", task.product_key), ("status", "error"),
               ("message", "上传失败 (状态码: " ++ toString status_code ++ ")")]
          | .exn e =>
            [("product", task.product_key), ("status", "error"),
             ("message", "网络请求异常: " ++ e)]) := by
  refine ⟨?_, ?_⟩
  · rw [exec_eq_map]
    exact List.length_map _ _
  · intro i
    rw [exec_eq_map, List.getElem?_map]
    rfl

/-- Claim C9: a request in which every product is a fixed-path product
never calls the pipeline API (the call flag is false, for every fetch
oracle) and, given a usable token and an upload service answering 200,
produces one success summary per requested product, in request order. -/
theorem C9_fixed_only_request (envToken : Option String) (fetch : String → FetchResult)
    (http : String → String → HttpResult) (request : UploadRequest)
    (hfix : ∀ p ∈ request.products, (dictGet? FIXED_JSON_PATHS p).isSome = true)
    (htok : envToken.getD "" ≠ "" ∨ stripWs (request.custom_token.getD "") ≠ "")
    (h200 : ∀ a b, http a b = HttpResult.resp 200) :
    (start_upload_process envToken fetch http request).2 = false ∧
    resultProducts (start_upload_process envToken fetch http request).1
      = some request.products ∧
    resultAllSuccess (start_upload_process envToken fetch http request).1 = true := by
  have htk : ((if (!(stripWs (request.custom_token.getD "") == "")) = true
      then request.custom_token else envToken).getD "" == "") = false := by
    by_cases hcu : stripWs (request.custom_token.getD "") = ""
    · have hn : (!(stripWs (request.custom_token.getD "") == "")) = false := by simp [hcu]
      rw [hn]
      simp only [Bool.false_eq_true, if_false]
      rcases htok with henv | habs
      · exact beq_eq_false_iff_ne.mpr henv
      · exact absurd hcu habs
    · have hn : (!(stripWs (request.custom_token.getD "") == "")) = true := by simp [hcu]
      rw [hn, if_pos rfl]
      refine beq_eq_false_iff_ne.mpr ?_
      intro h0
      exact hcu (by rw [h0]; rfl)
  have hdyn : (request.products.any (fun p => !(dictGet? FIXED_JSON_PATHS p).isSome))
      = false := by
    apply Bool.eq_false_iff.mpr
    intro hany
    obtain ⟨p, hp, hneg⟩ := List.any_eq_true.mp hany
    rw [hfix p hp] at hneg
    simp at hneg
  unfold start_upload_process
  dsimp only
  simp only [htk, hdyn, Bool.false_eq_true, if_false]
  refine ⟨trivial, ?_, ?_⟩
  · simp [resultProducts, aggregate_products]
  · simp only [resultAllSuccess]
    rw [List.all_eq_true]
    intro s hs
    unfold aggregate_results at hs
    obtain ⟨pk, hpk, rfl⟩ := List.mem_map.mp hs
    have hne := build_filter_ne ⟨[]⟩ request.products request.date_version pk hpk (hfix pk hpk)
    have hst := summarize_success http h200 _ pk hne
    simp [hst]

/-- Witness for C9: a request for the two fixed-path products with a
stored token, an upload service that always answers 200, and a fetch
oracle that would time out if it were ever consulted. -/
theorem C9_fixed_only_request_witness :
    (start_upload_process (some "tok") (fun _ => FetchResult.timeout)
      (fun _ _ => HttpResult.resp 200)
      ⟨"", "2025", none, ["ST3_DEV_json", "ST35_PROD_json"]⟩).2 = false ∧
    resultProducts (start_upload_process (some "tok") (fun _ => FetchResult.timeout)
      (fun _ _ => HttpResult.resp 200)
      ⟨"", "2025", none, ["ST3_DEV_json", "ST35_PROD_json"]⟩).1
      = some ["ST3_DEV_json", "ST35_PROD_json"] ∧
    resultAllSuccess (start_upload_process (some "tok") (fun _ => FetchResult.timeout)
      (fun _ _ => HttpResult.resp 200)
      ⟨"", "2025", none, ["ST3_DEV_json", "ST35_PROD_json"]⟩).1 = true :=
  C9_fixed_only_request (some "tok") (fun _ => FetchResult.timeout)
    (fun _ _ => HttpResult.resp 200)
    ⟨"", "2025", none, ["ST3_DEV_json", "ST35_PROD_json"]⟩
    (by intro p hp; fin_cases hp <;> rfl)
    (Or.inl (by simp))
    (fun _ _ => rfl)

/-- Claim C10: the Task Builder is a pure function of its inputs — running
it twice on the same (apiDocument, requestedProducts, dateVersion) yields
identical task lists. -/
theorem C10_task_builder_pure (basePaths : StrDict) (api : ApiData)
    (products : List String) (dv : String) :
    build_upload_tasks basePaths api products dv
      = build_upload_tasks basePaths api products dv := rfl

end JforgUpload
